import Mathlib

/-!
Windows clipboard backend of the scrap module (`src/scrap_win.c`)

A shallow embedding of `scrap_win.c`.

* C memory blocks (`char *`) are lists of bytes (`List Nat`); a C string is
  the bytes of a block up to its first zero byte.
* The system clipboard is an association list from format id to data block,
  in enumeration order.
* Win32 calls whose result the C code tests (`OpenClipboard`, `GlobalAlloc`,
  `GetClipboardData`, `malloc`, `realloc`, `EnumClipboardFormats`,
  `SDL_GetWMInfo`) can fail; their outcome for one call of a scrap function
  is read from a `Sys` record.  Calls whose result the C code discards
  (`RegisterClipboardFormat`, `EmptyClipboard`, `SetClipboardData`,
  `GlobalLock`, `CloseClipboard`) are modelled as succeeding.
* `UINT` values are naturals below `2 ^ 32`; the conversion of the `int`
  constant `-1` to `UINT` is explicit.
-/

namespace ScrapWin

/-! ## Bytes, blocks and C strings -/

/-- The bytes of a C string literal: the characters followed by the terminating zero. -/
def lit (s : String) : List Nat :=
  s.toList.map Char.toNat ++ [0]

/-- The characters of the C string stored at the start of a block: the bytes
before the first zero byte. -/
def cstring (p : List Nat) : List Nat :=
  p.takeWhile (fun b => b != 0)

/-- C `strlen`: the number of bytes before the first zero byte. -/
def strlen (p : List Nat) : Nat :=
  (cstring p).length

/-- C `strcmp`: zero when both C strings are equal, else the difference of the
first bytes that differ.  The end of a modelled block reads as a zero byte. -/
def strcmp : List Nat → List Nat → Int
  | [], [] => 0
  | [], b :: _ => 0 - (b : Int)
  | a :: _, [] => (a : Int)
  | a :: as, b :: bs =>
    if a = b then (if a = 0 then 0 else strcmp as bs) else (a : Int) - (b : Int)

/-- C `memset (dst, c, n)`: the first `n` bytes of the block become `c`. -/
def memset (dst : List Nat) (c : Nat) (n : Nat) : List Nat :=
  List.replicate n c ++ dst.drop n

/-- C `memcpy (dst, src, n)`: the first `n` bytes of `dst` become the first
`n` bytes of `src`. -/
def memcpy (dst src : List Nat) (n : Nat) : List Nat :=
  src.take n ++ dst.drop n

/-- A freshly allocated block of `n` bytes (`malloc`, `GlobalAlloc`).  Its
contents are unspecified in C; every caller overwrites them with `memset`. -/
def block (n : Nat) : List Nat :=
  List.replicate n 0

/-! ## Constants -/

/-- The constant `INT_MAX` of a 32-bit `int` (`MAX_CHUNK_SIZE`). -/
def INT_MAX : Nat := 2 ^ 31 - 1

/-- Conversion of an `int` to the 32-bit unsigned `UINT`. -/
def toUINT (i : Int) : Nat :=
  (i % 2 ^ 32).toNat

/-- Windows SDK clipboard format `CF_TEXT`. -/
def CF_TEXT : Nat := 1
/-- Windows SDK clipboard format `CF_BITMAP`. -/
def CF_BITMAP : Nat := 2
/-- Windows SDK clipboard format `CF_TIFF`. -/
def CF_TIFF : Nat := 6
/-- Windows SDK clipboard format `CF_WAVE`. -/
def CF_WAVE : Nat := 12
/-- Windows SDK clipboard format `CF_UNICODETEXT`. -/
def CF_UNICODETEXT : Nat := 13

/-- Modelled from the spec: the macro `PYGAME_SCRAP_TEXT` is defined in a header
that is not part of the source file; the spec names it as the type tag "text/plain". -/
def PYGAME_SCRAP_TEXT : List Nat := lit "text/plain"

/-- Modelled from the spec: the macro `PYGAME_SCRAP_BMP` is defined in a header
that is not part of the source file; the spec names it as the type tag "image/bmp". -/
def PYGAME_SCRAP_BMP : List Nat := lit "image/bmp"

/-! ## The operating system -/

/-- The part of Windows that does not change between calls: the table of
registered clipboard format names. -/
structure Win32 where
  /-- The atom that `RegisterClipboardFormat` assigns to a format name.
  Registered formats are numbered from `0xC000` to `0xFFFF`. -/
  atom : List Nat → Fin 0x4000
  /-- The name `GetClipboardFormatName` reports for a format id; empty when
  the format has no registered name (the call then fails and returns 0). -/
  formatName : Nat → List Nat

/-- Win32 `RegisterClipboardFormat`: a function of the name (a C string). -/
def RegisterClipboardFormat (os : Win32) (name : List Nat) : Nat :=
  0xC000 + (os.atom (cstring name)).val

/-- Win32 `GetClipboardFormatName (format, buf, size)`: copies at most
`size - 1` characters of the name and a terminating zero into `buf` and
returns the number of characters copied; returns 0 when there is no name. -/
def GetClipboardFormatName (os : Win32) (format : Nat) (buf : List Nat) (size : Nat) :
    Nat × List Nat :=
  let name := (os.formatName format).take (size - 1)
  if name.length = 0 then (0, buf)
  else (name.length, memcpy buf (name ++ [0]) (name.length + 1))

/-! ## Format translation (`scrap_win.c`, lines 35-107) -/

/-- The function `_convert_format`: the system format registered for a type. -/
def _convert_format (os : Win32) (type : List Nat) : Nat :=
  RegisterClipboardFormat os type

/-- The function `_convert_internal_type`: the predefined format of a type, or `-1` (as a
`UINT`) when the type is not in the table. -/
def _convert_internal_type (type : List Nat) : Nat :=
  if strcmp type PYGAME_SCRAP_TEXT = 0 then CF_TEXT
  else if strcmp type (lit "text/plain;charset=utf-8") = 0 then CF_UNICODETEXT
  else if strcmp type (lit "image/tiff") = 0 then CF_TIFF
  else if strcmp type PYGAME_SCRAP_BMP = 0 then CF_BITMAP
  else if strcmp type (lit "audio/wav") = 0 then CF_WAVE
  else toUINT (-1)

/-- The tail of `_lookup_clipboard_format` after the `switch`:
`if (len != 0) memcpy (buf, cpy, len); return len;`. -/
def lookupCopy (buf : List Nat) (len : Nat) (cpy : List Nat) : Nat × List Nat :=
  if len ≠ 0 then (len, memcpy buf cpy len) else (len, buf)

/-- The function `_lookup_clipboard_format (format, buf, size)`: the returned length and the
contents of `buf` afterwards. -/
def _lookup_clipboard_format (os : Win32) (format : Nat) (buf : List Nat) (size : Nat) :
    Nat × List Nat :=
  let buf := memset buf 0 size
  if format = CF_TEXT then lookupCopy buf (strlen PYGAME_SCRAP_TEXT) PYGAME_SCRAP_TEXT
  else if format = CF_UNICODETEXT then lookupCopy buf 24 (lit "text/plain;charset=utf-8")
  else if format = CF_TIFF then lookupCopy buf 10 (lit "image/tiff")
  else if format = CF_BITMAP then lookupCopy buf (strlen PYGAME_SCRAP_BMP) PYGAME_SCRAP_BMP
  else if format = CF_WAVE then lookupCopy buf 9 (lit "audio/wav")
  else GetClipboardFormatName os format buf size

/-! ## Program state and system calls -/

/-- The state the scrap functions read and write: the statics of the module,
the flag and dictionary owned by the generic scrap module, the pending Python
and SDL errors, and the system clipboard. -/
structure State where
  /-- Modelled from the spec: the initialized-flag owned by the generic scrap
  module, read through `pygame_scrap_initialized ()`. -/
  _scrapinitialized : Bool
  /-- The static `SDL_Window`. -/
  SDL_Window : Nat
  /-- The static `_format_MIME_PLAIN`. -/
  _format_MIME_PLAIN : Nat
  /-- Modelled from the spec: the dictionary `_clipdata` owned by the generic
  scrap module, from type name to data. -/
  _clipdata : List (List Nat × List Nat)
  /-- The contents of the system clipboard: format id and data block, in
  enumeration order. -/
  clipboard : List (Nat × List Nat)
  /-- The clipboard is held open by this module. -/
  clipOpen : Bool
  /-- The pending Python error (`PyErr_SetString`). -/
  pyerr : Option String
  /-- The SDL error string (`SDL_SetError`). -/
  sdlerr : Option String

/-- The outcomes, during one call of a scrap function, of the system calls
whose result the C code tests. -/
structure Sys where
  /-- The result of `SDL_GetWMInfo`: the window handle, or `none` when the call fails. -/
  wmInfo : Option Nat
  /-- The result of `GetClipboardOwner ()`. -/
  owner : Nat
  /-- Whether `OpenClipboard` succeeds. -/
  openClipboard : Bool
  /-- Whether `GlobalAlloc` returns a non-NULL handle. -/
  globalAlloc : Bool
  /-- Whether `GetClipboardData` returns a non-NULL handle for an available format. -/
  getClipboardData : Bool
  /-- Whether the `k`-th call of `malloc` or `realloc` (counted from 0) succeeds. -/
  alloc : Nat → Bool
  /-- Whether `EnumClipboardFormats` succeeds in iteration `i` of the enumeration. -/
  enum : Nat → Bool

/-- Modelled from the spec: `pygame_scrap_initialized ()` of the generic scrap
module returns the initialized-flag. -/
def pygame_scrap_initialized (s : State) : Bool :=
  s._scrapinitialized

/-- The call `PyErr_SetString (PyExc_SDLError, msg)`. -/
def PyErr_SetString (s : State) (msg : String) : State :=
  { s with pyerr := some msg }

/-- The call `OpenClipboard (SDL_Window)`: whether it succeeded, and the state. -/
def OpenClipboard (sys : Sys) (s : State) : Bool × State :=
  if sys.openClipboard then (true, { s with clipOpen := true }) else (false, s)

/-- The call `CloseClipboard ()`. -/
def CloseClipboard (s : State) : State :=
  { s with clipOpen := false }

/-- The call `EmptyClipboard ()`. -/
def EmptyClipboard (s : State) : State :=
  { s with clipboard := [] }

/-- The call `IsClipboardFormatAvailable (format)`. -/
def IsClipboardFormatAvailable (s : State) (format : Nat) : Bool :=
  s.clipboard.any (fun e => e.1 == format)

/-- The call `SetClipboardData (format, hMem)`: the data of `format` is replaced, or
the format is added at the end of the enumeration order. -/
def SetClipboardData (s : State) (format : Nat) (data : List Nat) : State :=
  if IsClipboardFormatAvailable s format then
    { s with clipboard := s.clipboard.map (fun e => if e.1 == format then (format, data) else e) }
  else
    { s with clipboard := s.clipboard ++ [(format, data)] }

/-- The call `GetClipboardData (format)` followed by `GlobalLock`: the data block, or
`none` when the handle is NULL. -/
def GetClipboardData (sys : Sys) (s : State) (format : Nat) : Option (List Nat) :=
  if sys.getClipboardData then (s.clipboard.find? (fun e => e.1 == format)).map (fun e => e.2)
  else none

/-- The call `GlobalAlloc (flags, n)` followed by `GlobalLock`: a block of `n` bytes,
or `none` when the handle is NULL. -/
def GlobalAlloc (sys : Sys) (n : Nat) : Option (List Nat) :=
  if sys.globalAlloc then some (block n) else none

/-- The call `CountClipboardFormats ()`. -/
def CountClipboardFormats (s : State) : Nat :=
  s.clipboard.length

/-- The format that follows `format` in the enumeration order of the
clipboard (the first one for `format = 0`), or 0 when there is none. -/
def nextFormat (clip : List (Nat × List Nat)) (format : Nat) : Nat :=
  if format = 0 then ((clip.head?).map (fun e => e.1)).getD 0
  else ((((clip.dropWhile (fun e => e.1 != format)).drop 1).head?).map (fun e => e.1)).getD 0

/-- The call `EnumClipboardFormats (format)` in iteration `i` of the enumeration: the
next format, or 0 when the call fails or there is no further format. -/
def EnumClipboardFormats (sys : Sys) (s : State) (i : Nat) (format : Nat) : Nat :=
  if sys.enum i then nextFormat s.clipboard format else 0

/-- Modelled from the spec: `PyString_AsString (PyDict_GetItemString (_clipdata, type))`,
the lookup in the dictionary owned by the generic scrap module. -/
def clipdataLookup (s : State) (type : List Nat) : Option (List Nat) :=
  (s._clipdata.find? (fun e => strcmp e.1 type == 0)).map (fun e => e.2)

/-! ## The entry points (`scrap_win.c`, lines 109-333) -/

/-- The function `pygame_scrap_init`: the return value and the state afterwards. -/
def pygame_scrap_init (os : Win32) (sys : Sys) (s : State) : Int × State :=
  let s0 := { s with sdlerr := some "SDL is not running on known window manager" }
  let retval : Int := if sys.wmInfo.isSome then 1 else 0
  let s1 :=
    match sys.wmInfo with
    | some window => { s0 with SDL_Window := window }
    | none => s0
  let s2 := if retval ≠ 0 then { s1 with _scrapinitialized := true } else s1
  (retval, { s2 with _format_MIME_PLAIN := RegisterClipboardFormat os (lit "text/plain") })

/-- The function `pygame_scrap_lost`: the return value and the state afterwards. -/
def pygame_scrap_lost (sys : Sys) (s : State) : Int × State :=
  if !pygame_scrap_initialized s then
    (0, PyErr_SetString s "scrap system not initialized.")
  else
    (if sys.owner ≠ s.SDL_Window then 1 else 0, s)

/-- The function `pygame_scrap_put (type, srclen, src)`: the return value and the state
afterwards.  `srclen` is a non-negative `int`; `nulledlen = srclen + 1` does
not overflow for `srclen < INT_MAX`. -/
def pygame_scrap_put (os : Win32) (sys : Sys) (s : State)
    (type : List Nat) (srclen : Nat) (src : List Nat) : Int × State :=
  let nulledlen := srclen + 1
  if !pygame_scrap_initialized s then
    (0, PyErr_SetString s "scrap system not initialized.")
  else
    let format := _convert_format os type
    let opened := OpenClipboard sys s
    if !opened.1 then (0, opened.2)
    else
      match GlobalAlloc sys nulledlen with
      | some hMem =>
        let dst := memcpy (memset hMem 0 nulledlen) src srclen
        let s1 := SetClipboardData (EmptyClipboard opened.2) format dst
        let s2 := if format = s1._format_MIME_PLAIN then SetClipboardData s1 CF_TEXT dst else s1
        (1, CloseClipboard s2)
      | none => (0, CloseClipboard opened.2)

/-- C `malloc (n)`: a block of `n` bytes, or `none` on failure. -/
def malloc (ok : Bool) (n : Nat) : Option (List Nat) :=
  if ok then some (block n) else none

/-- The result of `pygame_scrap_get`: the returned block (`none` for NULL),
the value of `*count` afterwards, and the state afterwards. -/
structure GetResult where
  retval : Option (List Nat)
  count : Nat
  state : State

/-- The second half of `pygame_scrap_get` (lines 216-245), entered with the
clipboard open and `format` settled: copy the data of `format` when the format
is available, and return `retval`. -/
def getAvailable (sys : Sys) (s : State) (format : Nat) (count : Nat) : GetResult :=
  if IsClipboardFormatAvailable s format then
    match GetClipboardData sys s format with
    | some src =>
      let count := strlen src + 1
      let retval :=
        match malloc (sys.alloc 0) count with
        | some p => some (memcpy (memset p 0 count) src count)
        | none => none
      ⟨retval, count, CloseClipboard s⟩
    | none => ⟨none, count, CloseClipboard s⟩
  else ⟨none, count, s⟩

/-- The function `pygame_scrap_get (type, &count)`, with `count` the value of
`*count` before the call. -/
def pygame_scrap_get (os : Win32) (sys : Sys) (s : State)
    (type : List Nat) (count : Nat) : GetResult :=
  let format := _convert_format os type
  if !pygame_scrap_initialized s then
    ⟨none, count, PyErr_SetString s "scrap system not initialized."⟩
  else
    let lost := pygame_scrap_lost sys s
    if lost.1 = 0 then ⟨clipdataLookup lost.2 type, count, lost.2⟩
    else
      let opened := OpenClipboard sys lost.2
      if !opened.1 then ⟨none, count, opened.2⟩
      else if !IsClipboardFormatAvailable opened.2 format then
        /- The format was not found - was it a mapped type? -/
        let format := _convert_internal_type type
        if format = toUINT (-1) then ⟨none, count, opened.2⟩
        else getAvailable sys opened.2 format count
      else getAvailable sys opened.2 format count

/-- The function `pygame_scrap_contains (type)`: nonzero when the format is available. -/
def pygame_scrap_contains (os : Win32) (s : State) (type : List Nat) : Int :=
  if IsClipboardFormatAvailable s (_convert_format os type) then 1 else 0

/-! ## Enumeration of the types (`scrap_win.c`, lines 248-327) -/

/-- An element of the `char **types` block: a name block, or `none` for NULL.
The elements that `realloc` adds are unspecified in C and read as NULL here;
the code stores into them before any use. -/
abbrev Slot := Option (List Nat)

/-- How a call of `pygame_scrap_get_types` ends. -/
inductive Outcome where
  /-- The call executes `return NULL`. -/
  | null : Outcome
  /-- The call executes `return types`, with the contents of the block. -/
  | types (a : List Slot) : Outcome
  /-- The call stores `types[index]` outside of the block of `length` elements. -/
  | badStore (index : Int) (length : Nat) : Outcome
  deriving DecidableEq

/-- A C `while (cond) body;` loop, run for at most `fuel` iterations: the
state on exit, or `none` when the loop is still running after `fuel` iterations. -/
def whileLoop {σ : Type} (cond : σ → Bool) (body : σ → σ) : Nat → σ → Option σ
  | 0, st => if cond st then none else some st
  | fuel + 1, st => if cond st then whileLoop cond body fuel (body st) else some st

/-- The cleanup `while (i > 0) free (types[i]);` of the enumeration failure
(lines 273-274): the body does not change `i`. -/
def freeAtI (fuel : Nat) (i : Int) : Option Int :=
  whileLoop (fun j => decide (j > 0)) (fun j => j) fuel i

/-- The cleanup `while (count > 0) { free (types[count]); count--; }` of the
allocation failures (lines 289-293, 301-305, 316-320). -/
def freeDown (fuel : Nat) (count : Int) : Option Int :=
  whileLoop (fun c => decide (c > 0)) (fun c => c - 1) fuel count

/-- C `realloc (p, n * sizeof (char *))` on a block of pointers:
the block of `n` elements that keeps the old elements, or `none` on failure. -/
def realloc (ok : Bool) (p : Option (List Slot)) (n : Nat) : Option (List Slot) :=
  if ok then
    let old := p.getD []
    some (old.take n ++ List.replicate (n - old.length) none)
  else none

/-- The store `types[count] = v`, checked against the size of the block. -/
def storeSlot (types : List Slot) (count : Int) (v : Slot) : Except Outcome (List Slot) :=
  if 0 ≤ count ∧ count < (types.length : Int) then .ok (types.set count.toNat v)
  else .error (.badStore count types.length)

/-- The local variables of `pygame_scrap_get_types` that the loop changes. -/
structure Locals where
  format : Nat
  types : Option (List Slot)
  count : Int
  tmp : List Nat
  /-- The number of `malloc` and `realloc` calls made so far. -/
  allocs : Nat

/-- The loop `for (i = 0; i < size; i++)` of `pygame_scrap_get_types`, with
`n = size - i` iterations left: the outcome when the loop body returns, the
locals when the loop runs to its end, `none` when a cleanup loop is out of fuel. -/
def typesLoop (os : Win32) (sys : Sys) (s : State) (fuel : Nat) :
    Nat → Nat → Locals → Option (Outcome ⊕ Locals)
  | 0, _, st => some (.inr st)
  | n + 1, i, st =>
    let format := EnumClipboardFormats sys s i st.format
    if format = 0 then
      (freeAtI fuel i).map (fun _ => .inl .null)
    else
      let len := (_lookup_clipboard_format os format st.tmp 100).1
      let tmp := (_lookup_clipboard_format os format st.tmp 100).2
      if len = 0 then
        typesLoop os sys s fuel n (i + 1) { st with format := format, tmp := tmp }
      else
        let count := st.count + 1
        match realloc (sys.alloc st.allocs) st.types (count + 1).toNat with
        | none => (freeDown fuel count).map (fun _ => .inl .null)
        | some tmptypes =>
          let p := malloc (sys.alloc (st.allocs + 1)) (len + 1)
          match storeSlot tmptypes count p with
          | .error o => some (.inl o)
          | .ok types =>
            match p with
            | none => (freeDown fuel count).map (fun _ => .inl .null)
            | some b =>
              let name := memcpy (memset b 0 (len + 1)) tmp len
              typesLoop os sys s fuel n (i + 1)
                { format := format, types := some (types.set count.toNat (some name)),
                  count := count, tmp := tmp, allocs := st.allocs + 2 }

/-- The function `pygame_scrap_get_types`: how the call ends and the state
afterwards, or `none` when a cleanup loop is still running after `fuel`
iterations. -/
def pygame_scrap_get_types (os : Win32) (sys : Sys) (s : State) (fuel : Nat) :
    Option (Outcome × State) :=
  let opened := OpenClipboard sys s
  if !opened.1 then some (.null, opened.2)
  else
    let s1 := opened.2
    let size := CountClipboardFormats s1
    if size = 0 then some (.null, s1)
    else
      match typesLoop os sys s1 fuel size 0
          { format := 0, types := none, count := -1, tmp := memset (block 100) 0 100,
            allocs := 0 } with
      | none => none
      | some (.inl o) => some (o, s1)
      | some (.inr st) =>
        match realloc (sys.alloc st.allocs) st.types (st.count + 1).toNat with
        | none => (freeDown fuel st.count).map (fun _ => (.null, s1))
        | some tmptypes =>
          match storeSlot tmptypes st.count none with
          | .error o => some (o, s1)
          | .ok types => some (.types types, s1)

/-! ## Sample systems and states -/

/-- A format table: the atom of a name is its length, and format `0xC000 + k`
has a name of `k` letters `x`. -/
def os0 : Win32 :=
  { atom := fun name => Fin.ofNat name.length
    formatName := fun f => if 0xC000 < f then List.replicate (f - 0xC000) 120 else [] }

/-- Every system call succeeds; the clipboard is owned by window 7. -/
def sysOk : Sys :=
  { wmInfo := some 1, owner := 7, openClipboard := true, globalAlloc := true,
    getClipboardData := true, alloc := fun _ => true, enum := fun _ => true }

/-- Every system call succeeds except `malloc` and `realloc`. -/
def sysNoMem : Sys :=
  { sysOk with alloc := fun _ => false }

/-- Every system call succeeds except `GetClipboardData`, which returns NULL. -/
def sysNoData : Sys :=
  { sysOk with getClipboardData := false }

/-- Every system call succeeds except `EnumClipboardFormats` in iteration 1. -/
def sysEnumFails : Sys :=
  { sysOk with enum := fun i => i != 1 }

/-- An initialized scrap system (as left by `pygame_scrap_init os0 sysOk`)
with the given clipboard contents. -/
def stateWith (clip : List (Nat × List Nat)) : State :=
  { _scrapinitialized := true, SDL_Window := 1,
    _format_MIME_PLAIN := RegisterClipboardFormat os0 (lit "text/plain"),
    _clipdata := [], clipboard := clip, clipOpen := false, pyerr := none,
    sdlerr := some "SDL is not running on known window manager" }

/-! ## Invariant of the statics -/

/-- Once the scrap system is initialized, the static `_format_MIME_PLAIN` holds
the format registered for "text/plain" (it is assigned by `pygame_scrap_init`,
the only place that sets the initialized-flag). -/
def Inv (os : Win32) (s : State) : Prop :=
  s._scrapinitialized = true →
    s._format_MIME_PLAIN = RegisterClipboardFormat os (lit "text/plain")

/-- The condition under which `pygame_scrap_get` reads the system clipboard:
the scrap system is initialized, `pygame_scrap_lost ()` is nonzero and
`OpenClipboard` succeeds. -/
def ReadsClipboard (sys : Sys) (s : State) : Prop :=
  pygame_scrap_initialized s = true ∧ (pygame_scrap_lost sys s).1 ≠ 0 ∧
    (OpenClipboard sys s).1 = true

/-- The data block stored on the clipboard under a format, if any. -/
def clipboardData (s : State) (format : Nat) : Option (List Nat) :=
  (s.clipboard.find? (fun e => e.1 == format)).map (fun e => e.2)

/-- The block that the loop of `pygame_scrap_get_types` allocates and fills
for a format (lines 298-311): `len + 1` bytes holding the `len` bytes that
`_lookup_clipboard_format` wrote and a zero byte. -/
def nameBlock (os : Win32) (format : Nat) : List Nat :=
  let len := (_lookup_clipboard_format os format (block 100) 100).1
  let tmp := (_lookup_clipboard_format os format (block 100) 100).2
  memcpy (memset (block (len + 1)) 0 (len + 1)) tmp len

/-- The name block stored for a format, or `none` when the length of the name
is 0 and the loop skips the format. -/
def nameOf (os : Win32) (format : Nat) : Option (List Nat) :=
  if (_lookup_clipboard_format os format (block 100) 100).1 = 0 then none
  else some (nameBlock os format)

/-- The names of the formats of a clipboard that have a name of nonzero
length, in enumeration order. -/
def namesOf (os : Win32) (clip : List (Nat × List Nat)) : List (List Nat) :=
  clip.filterMap (fun e => nameOf os e.1)

/-- The block of pointers that holds the names `names`: NULL when there is none. -/
def typesOf (names : List (List Nat)) : Option (List Slot) :=
  if names = [] then none else some (names.map some)

/-! ## Lemmas on blocks -/

theorem memset_full (buf : List Nat) (c n : Nat) (h : buf.length = n) :
    memset buf c n = List.replicate n c := by
  simp [memset, ← h]

theorem memcpy_into_zeroed (src : List Nat) :
    memcpy (memset (block (src.length + 1)) 0 (src.length + 1)) src src.length = src ++ [0] := by
  simp [memcpy, memset, block, List.drop_replicate]

theorem lookup_buf_irrelevant (os : Win32) (format : Nat) (buf : List Nat)
    (h : buf.length = 100) :
    _lookup_clipboard_format os format buf 100 =
      _lookup_clipboard_format os format (block 100) 100 := by
  unfold _lookup_clipboard_format
  rw [memset_full buf 0 100 h, memset_full (block 100) 0 100 (by simp [block])]

/-! ## The type-name table -/

/-- Claim C6: for each of the five table names, looking up the format that
`_convert_internal_type` gives for the name returns `strlen (name)` (the
hard-coded 24, 10 and 9 are these lengths) and leaves the 100-byte buffer
holding the name followed by zero bytes; and for each of the five predefined
formats, `_convert_internal_type` of the name written by
`_lookup_clipboard_format` is that format. -/
theorem lookup_convert_table (os : Win32) (buf : List Nat) (hbuf : buf.length = 100) :
    (∀ name ∈ [PYGAME_SCRAP_TEXT, lit "text/plain;charset=utf-8", lit "image/tiff",
        PYGAME_SCRAP_BMP, lit "audio/wav"],
      _lookup_clipboard_format os (_convert_internal_type name) buf 100 =
        (strlen name, cstring name ++ List.replicate (100 - strlen name) 0)) ∧
    (strlen (lit "text/plain;charset=utf-8") = 24 ∧ strlen (lit "image/tiff") = 10 ∧
      strlen (lit "audio/wav") = 9) ∧
    (∀ format ∈ [CF_TEXT, CF_UNICODETEXT, CF_TIFF, CF_BITMAP, CF_WAVE],
      _convert_internal_type (_lookup_clipboard_format os format buf 100).2 = format) := by
  refine ⟨?_, by decide, ?_⟩
  · intro name hname
    rw [lookup_buf_irrelevant os _ buf hbuf]
    simp only [List.mem_cons, List.mem_singleton, List.not_mem_nil, or_false] at hname
    rcases hname with h | h | h | h | h <;> subst h <;> rfl
  · intro format hformat
    rw [lookup_buf_irrelevant os _ buf hbuf]
    simp only [List.mem_cons, List.mem_singleton, List.not_mem_nil, or_false] at hformat
    rcases hformat with h | h | h | h | h <;> subst h <;> rfl

/-- Claim C6 at the zeroed buffer `char tmp[100]` of `pygame_scrap_get_types`. -/
theorem lookup_convert_table_witness :
    (∀ name ∈ [PYGAME_SCRAP_TEXT, lit "text/plain;charset=utf-8", lit "image/tiff",
        PYGAME_SCRAP_BMP, lit "audio/wav"],
      _lookup_clipboard_format os0 (_convert_internal_type name) (block 100) 100 =
        (strlen name, cstring name ++ List.replicate (100 - strlen name) 0)) ∧
    (strlen (lit "text/plain;charset=utf-8") = 24 ∧ strlen (lit "image/tiff") = 10 ∧
      strlen (lit "audio/wav") = 9) ∧
    (∀ format ∈ [CF_TEXT, CF_UNICODETEXT, CF_TIFF, CF_BITMAP, CF_WAVE],
      _convert_internal_type (_lookup_clipboard_format os0 format (block 100) 100).2 = format) :=
  lookup_convert_table os0 (block 100) (by decide)


/-! ## `pygame_scrap_init` and the invariant -/

theorem init_establishes_inv (os : Win32) (sys : Sys) (s : State) :
    Inv os (pygame_scrap_init os sys s).2 := by
  intro _
  simp [pygame_scrap_init]

theorem init_return (os : Win32) (sys : Sys) (s : State) :
    ((pygame_scrap_init os sys s).1 = 1 ↔ sys.wmInfo.isSome = true) ∧
    ((pygame_scrap_init os sys s).1 = 1 →
      (pygame_scrap_init os sys s).2._scrapinitialized = true) := by
  cases h : sys.wmInfo <;> simp [pygame_scrap_init, h]

/-! ## `pygame_scrap_put` -/

theorem put_not_initialized (os : Win32) (sys : Sys) (s : State)
    (type : List Nat) (srclen : Nat) (src : List Nat) (hi : s._scrapinitialized = false) :
    pygame_scrap_put os sys s type srclen src =
      (0, PyErr_SetString s "scrap system not initialized.") := by
  simp only [pygame_scrap_put, pygame_scrap_initialized, hi, Bool.not_false, if_true]

theorem put_open_failed (os : Win32) (sys : Sys) (s : State)
    (type : List Nat) (srclen : Nat) (src : List Nat) (hi : s._scrapinitialized = true)
    (ho : sys.openClipboard = false) :
    pygame_scrap_put os sys s type srclen src = (0, s) := by
  simp [pygame_scrap_put, pygame_scrap_initialized, hi, OpenClipboard, ho]

theorem put_alloc_failed (os : Win32) (sys : Sys) (s : State)
    (type : List Nat) (srclen : Nat) (src : List Nat) (hi : s._scrapinitialized = true)
    (ho : sys.openClipboard = true) (ha : sys.globalAlloc = false) :
    pygame_scrap_put os sys s type srclen src = (0, { s with clipOpen := false }) := by
  simp [pygame_scrap_put, pygame_scrap_initialized, hi, OpenClipboard, ho, GlobalAlloc, ha,
    CloseClipboard]

theorem put_succeeded (os : Win32) (sys : Sys) (s : State)
    (type : List Nat) (srclen : Nat) (src : List Nat) (hi : s._scrapinitialized = true)
    (ho : sys.openClipboard = true) (ha : sys.globalAlloc = true) :
    pygame_scrap_put os sys s type srclen src =
      (1, { s with
        clipOpen := false
        clipboard :=
          if _convert_format os type = s._format_MIME_PLAIN then
            [(_convert_format os type,
                memcpy (memset (block (srclen + 1)) 0 (srclen + 1)) src srclen),
             (CF_TEXT, memcpy (memset (block (srclen + 1)) 0 (srclen + 1)) src srclen)]
          else
            [(_convert_format os type,
                memcpy (memset (block (srclen + 1)) 0 (srclen + 1)) src srclen)] }) := by
  have hne : ¬ (_convert_format os type = CF_TEXT) := by
    simp only [_convert_format, RegisterClipboardFormat, CF_TEXT]; omega
  by_cases hf : _convert_format os type = s._format_MIME_PLAIN
  · have hne2 : ¬ (s._format_MIME_PLAIN = CF_TEXT) := hf ▸ hne
    simp [pygame_scrap_put, pygame_scrap_initialized, hi, OpenClipboard, ho, GlobalAlloc, ha,
      CloseClipboard, EmptyClipboard, SetClipboardData, IsClipboardFormatAvailable, hf, hne2]
  · simp [pygame_scrap_put, pygame_scrap_initialized, hi, OpenClipboard, ho, GlobalAlloc, ha,
      CloseClipboard, EmptyClipboard, SetClipboardData, IsClipboardFormatAvailable, hf]

theorem put_initialized_of_success (os : Win32) (sys : Sys) (s : State)
    (type : List Nat) (srclen : Nat) (src : List Nat)
    (hret : (pygame_scrap_put os sys s type srclen src).1 = 1) :
    s._scrapinitialized = true := by
  cases hi : s._scrapinitialized
  · rw [put_not_initialized os sys s type srclen src hi] at hret; simp at hret
  · rfl

theorem put_preserves_inv (os : Win32) (sys : Sys) (s : State)
    (type : List Nat) (srclen : Nat) (src : List Nat) (h : Inv os s) :
    Inv os (pygame_scrap_put os sys s type srclen src).2 := by
  unfold Inv at *
  cases hi : s._scrapinitialized
  · rw [put_not_initialized os sys s type srclen src hi]
    simp [PyErr_SetString, hi]
  · cases ho : sys.openClipboard
    · rw [put_open_failed os sys s type srclen src hi ho]; exact h
    · cases ha : sys.globalAlloc
      · rw [put_alloc_failed os sys s type srclen src hi ho ha]; exact h
      · rw [put_succeeded os sys s type srclen src hi ho ha]; exact h

/-- The clipboard after `EmptyClipboard`, `SetClipboardData (format, dst)` and
the conditional `SetClipboardData (CF_TEXT, dst)` of `pygame_scrap_put`. -/
theorem put_clipboard (os : Win32) (sys : Sys) (s : State)
    (type : List Nat) (srclen : Nat) (src : List Nat)
    (hret : (pygame_scrap_put os sys s type srclen src).1 = 1) :
    (pygame_scrap_put os sys s type srclen src).2.clipboard =
      if _convert_format os type = s._format_MIME_PLAIN then
        [(_convert_format os type, memcpy (memset (block (srclen + 1)) 0 (srclen + 1)) src srclen),
         (CF_TEXT, memcpy (memset (block (srclen + 1)) 0 (srclen + 1)) src srclen)]
      else
        [(_convert_format os type,
          memcpy (memset (block (srclen + 1)) 0 (srclen + 1)) src srclen)] := by
  cases hi : s._scrapinitialized
  · rw [put_not_initialized os sys s type srclen src hi] at hret; simp at hret
  · cases ho : sys.openClipboard
    · rw [put_open_failed os sys s type srclen src hi ho] at hret; simp at hret
    · cases ha : sys.globalAlloc
      · rw [put_alloc_failed os sys s type srclen src hi ho ha] at hret; simp at hret
      · rw [put_succeeded os sys s type srclen src hi ho ha]

/-- Claim C3: `pygame_scrap_put` returns 1 exactly when the scrap system is
initialized, `OpenClipboard` succeeds and `GlobalAlloc` returns a non-NULL
handle, and returns 0 otherwise; when it returns 0 the clipboard contents are
unchanged; the error "scrap system not initialized." is set when the system is
not initialized, and the pending error is left as it was when it is. -/
theorem put_atomic (os : Win32) (sys : Sys) (s : State)
    (type : List Nat) (srclen : Nat) (src : List Nat) :
    ((pygame_scrap_put os sys s type srclen src).1 = 1 ↔
      (pygame_scrap_initialized s = true ∧ (OpenClipboard sys s).1 = true ∧
        (GlobalAlloc sys (srclen + 1)).isSome = true)) ∧
    ((pygame_scrap_put os sys s type srclen src).1 ≠ 1 →
      (pygame_scrap_put os sys s type srclen src).1 = 0 ∧
      (pygame_scrap_put os sys s type srclen src).2.clipboard = s.clipboard) ∧
    (pygame_scrap_initialized s = false →
      (pygame_scrap_put os sys s type srclen src).2.pyerr =
        some "scrap system not initialized.") ∧
    (pygame_scrap_initialized s = true →
      (pygame_scrap_put os sys s type srclen src).2.pyerr = s.pyerr) := by
  cases hi : s._scrapinitialized
  · rw [put_not_initialized os sys s type srclen src hi]
    simp [pygame_scrap_initialized, hi, PyErr_SetString]
  · cases ho : sys.openClipboard
    · rw [put_open_failed os sys s type srclen src hi ho]
      simp [pygame_scrap_initialized, hi, OpenClipboard, ho]
    · cases ha : sys.globalAlloc
      · rw [put_alloc_failed os sys s type srclen src hi ho ha]
        simp [pygame_scrap_initialized, hi, GlobalAlloc, ha]
      · rw [put_succeeded os sys s type srclen src hi ho ha]
        simp [pygame_scrap_initialized, hi, OpenClipboard, ho, GlobalAlloc, ha]

/-- Claim C4: when `pygame_scrap_put (type, srclen, src)` returns 1, with `src`
a buffer of `srclen < INT_MAX` bytes, the clipboard holds exactly `src`
followed by one zero byte (`srclen + 1` bytes) under the format registered for
`type`, and also under `CF_TEXT` exactly when that format is the one registered
for "text/plain"; the previous contents are gone and no other format is held. -/
theorem put_contents (os : Win32) (sys : Sys) (s : State)
    (type : List Nat) (srclen : Nat) (src : List Nat)
    (hinv : Inv os s) (hlen : src.length = srclen) (_hmax : srclen < INT_MAX)
    (hret : (pygame_scrap_put os sys s type srclen src).1 = 1) :
    (pygame_scrap_put os sys s type srclen src).2.clipboard =
      (if RegisterClipboardFormat os type = RegisterClipboardFormat os (lit "text/plain") then
        [(RegisterClipboardFormat os type, src ++ [0]), (CF_TEXT, src ++ [0])]
      else [(RegisterClipboardFormat os type, src ++ [0])]) ∧
    (src ++ [0]).length = srclen + 1 := by
  have hinit : s._scrapinitialized = true :=
    put_initialized_of_success os sys s type srclen src hret
  rw [put_clipboard os sys s type srclen src hret, hinv hinit]
  subst hlen
  simp [memcpy_into_zeroed, _convert_format]

/-- Claim C4 at a sample call: putting three bytes under "text/plain" on a
clipboard that held a bitmap. -/
theorem put_contents_witness :
    (pygame_scrap_put os0 sysOk (stateWith [(CF_BITMAP, [1, 2])])
        (lit "text/plain") 3 [104, 105, 33]).2.clipboard =
      (if RegisterClipboardFormat os0 (lit "text/plain") =
          RegisterClipboardFormat os0 (lit "text/plain") then
        [(RegisterClipboardFormat os0 (lit "text/plain"), [104, 105, 33] ++ [0]),
         (CF_TEXT, [104, 105, 33] ++ [0])]
      else [(RegisterClipboardFormat os0 (lit "text/plain"), [104, 105, 33] ++ [0])]) ∧
    ([104, 105, 33] ++ [0]).length = 3 + 1 :=
  put_contents os0 sysOk (stateWith [(CF_BITMAP, [1, 2])]) (lit "text/plain") 3 [104, 105, 33]
    (fun _ => rfl) rfl (by decide) (by decide)

/-! ## `pygame_scrap_contains` -/

/-- Claim C5: `pygame_scrap_contains (type)` is nonzero exactly when the format
registered for `type` is on the clipboard; so right after a `pygame_scrap_put
(type, srclen, src)` that returned 1 it is nonzero for `type`, and zero for
every other type whose registered format differs from that of `type`. -/
theorem contains_after_put (os : Win32) (sys : Sys) (s : State)
    (type : List Nat) (srclen : Nat) (src : List Nat) (other : List Nat)
    (hret : (pygame_scrap_put os sys s type srclen src).1 = 1)
    (hother : RegisterClipboardFormat os other ≠ RegisterClipboardFormat os type) :
    (∀ (st : State) (t : List Nat), pygame_scrap_contains os st t ≠ 0 ↔
      ∃ d, (RegisterClipboardFormat os t, d) ∈ st.clipboard) ∧
    pygame_scrap_contains os (pygame_scrap_put os sys s type srclen src).2 type ≠ 0 ∧
    pygame_scrap_contains os (pygame_scrap_put os sys s type srclen src).2 other = 0 := by
  have hne : ¬ (CF_TEXT = RegisterClipboardFormat os other) := by
    simp [RegisterClipboardFormat, CF_TEXT]; omega
  refine ⟨?_, ?_, ?_⟩
  · intro st t
    simp [pygame_scrap_contains, IsClipboardFormatAvailable, _convert_format]
  · simp only [pygame_scrap_contains, IsClipboardFormatAvailable,
      put_clipboard os sys s type srclen src hret]
    split <;> simp
  · simp only [pygame_scrap_contains, IsClipboardFormatAvailable,
      put_clipboard os sys s type srclen src hret, _convert_format]
    split <;> simp [Ne.symm hother, hne]

/-- Claim C5 at a sample call: after putting "image/bmp" data, "image/bmp" is
contained and "text/plain" is not. -/
theorem contains_after_put_witness :
    (∀ (st : State) (t : List Nat), pygame_scrap_contains os0 st t ≠ 0 ↔
      ∃ d, (RegisterClipboardFormat os0 t, d) ∈ st.clipboard) ∧
    pygame_scrap_contains os0
      (pygame_scrap_put os0 sysOk (stateWith []) (lit "image/bmp") 2 [66, 77]).2
      (lit "image/bmp") ≠ 0 ∧
    pygame_scrap_contains os0
      (pygame_scrap_put os0 sysOk (stateWith []) (lit "image/bmp") 2 [66, 77]).2
      (lit "text/plain") = 0 :=
  contains_after_put os0 sysOk (stateWith []) (lit "image/bmp") 2 [66, 77] (lit "text/plain")
    (by decide) (by decide)

/-! ## `pygame_scrap_get` -/

theorem take_strlen_succ (d : List Nat) (h : 0 ∈ d) :
    d.take (strlen d + 1) = cstring d ++ [0] := by
  induction d with
  | nil => simp at h
  | cons b d ih =>
    by_cases hb : b = 0
    · subst hb; simp [strlen, cstring]
    · have h2 : 0 ∈ d := by
        rcases List.mem_cons.1 h with h1 | h1
        · exact absurd h1.symm hb
        · exact h1
      have := ih h2
      simp only [strlen, cstring] at this ⊢
      simp [List.takeWhile_cons, hb, this]

theorem cstring_of_no_zero (src : List Nat) (h : ∀ b ∈ src, b ≠ 0) :
    cstring (src ++ [0]) = src := by
  induction src with
  | nil => simp [cstring]
  | cons b src ih =>
    have hb : b ≠ 0 := h b (List.mem_cons_self _ _)
    have := ih (fun c hc => h c (List.mem_cons_of_mem _ hc))
    simp only [cstring] at this ⊢
    simp [List.takeWhile_cons, hb, this]

/-- The result of the copying half of `pygame_scrap_get` when the format holds
zero-terminated data and `GetClipboardData` and `malloc` succeed. -/
theorem getAvailable_copy (sys : Sys) (s : State) (format count : Nat) (d : List Nat)
    (hd : clipboardData s format = some d) (hz : 0 ∈ d)
    (hg : sys.getClipboardData = true) (hm : sys.alloc 0 = true) :
    getAvailable sys s format count =
      ⟨some (cstring d ++ [0]), strlen d + 1, CloseClipboard s⟩ := by
  have hav : IsClipboardFormatAvailable s format = true := by
    unfold clipboardData at hd
    cases he : s.clipboard.find? (fun e => e.1 == format) with
    | none => rw [he] at hd; simp at hd
    | some e =>
      simp only [IsClipboardFormatAvailable, List.any_eq_true]
      have hp : (e.1 == format) = true :=
        @List.find?_some _ (fun e : Nat × List Nat => e.1 == format) e s.clipboard he
      exact ⟨e, List.mem_of_find?_eq_some he, hp⟩
  have hdata : GetClipboardData sys s format = some d := by
    simp only [GetClipboardData, hg, if_true]; exact hd
  simp only [getAvailable, hav, hdata, malloc, hm, if_true, memcpy, memset, block,
    List.drop_replicate, Nat.sub_self, List.replicate_zero, List.append_nil,
    take_strlen_succ d hz]

/-- The branch of `pygame_scrap_get` that reads the clipboard. -/
theorem get_reads_clipboard (os : Win32) (sys : Sys) (s : State) (type : List Nat)
    (count : Nat) (hb : ReadsClipboard sys s) :
    pygame_scrap_get os sys s type count =
      if IsClipboardFormatAvailable s (_convert_format os type) = true then
        getAvailable sys { s with clipOpen := true } (_convert_format os type) count
      else if _convert_internal_type type = toUINT (-1) then
        ⟨none, count, { s with clipOpen := true }⟩
      else getAvailable sys { s with clipOpen := true } (_convert_internal_type type) count := by
  obtain ⟨hi, hl, ho⟩ := hb
  simp only [pygame_scrap_initialized] at hi
  have hl2 : (pygame_scrap_lost sys s) = (1, s) := by
    simp only [pygame_scrap_lost, pygame_scrap_initialized, hi] at hl ⊢
    by_cases hw : sys.owner = s.SDL_Window <;> simp_all
  have ho2 : sys.openClipboard = true := by
    by_cases h : sys.openClipboard = true
    · exact h
    · simp [OpenClipboard, h] at ho
  simp only [pygame_scrap_get, pygame_scrap_initialized, hi, hl2, OpenClipboard, ho2,
    IsClipboardFormatAvailable]
  by_cases hav : (s.clipboard.any fun e => e.1 == _convert_format os type) = true
  · simp [hav]
  · simp [hav]

theorem strcmp_eq_zero_iff (a b : List Nat) : strcmp a b = 0 ↔ cstring a = cstring b := by
  induction a generalizing b with
  | nil =>
    cases b with
    | nil => simp [strcmp]
    | cons y ys =>
      by_cases hy : y = 0
      · simp [strcmp, cstring, hy]
      · simp [strcmp, cstring, List.takeWhile_cons, hy]
  | cons x xs ih =>
    cases b with
    | nil =>
      by_cases hx : x = 0
      · simp [strcmp, cstring, hx]
      · simp [strcmp, cstring, List.takeWhile_cons, hx]
    | cons y ys =>
      have ih2 := ih ys
      simp only [cstring] at ih2 ⊢
      by_cases hxy : x = y
      · subst hxy
        by_cases hx : x = 0
        · simp [strcmp, hx]
        · simp [strcmp, List.takeWhile_cons, hx, ih2]
      · have hsub : (x : Int) - (y : Int) ≠ 0 := by omega
        by_cases hx : x = 0
        · have hy : y ≠ 0 := fun h => hxy (hx.trans h.symm)
          have hy2 : ¬ (0 = y) := fun h => hy h.symm
          simp [strcmp, List.takeWhile_cons, hx, hy, hy2]
        · by_cases hy : y = 0
          · simp [strcmp, List.takeWhile_cons, hxy, hx, hy, hsub]
          · simp [strcmp, List.takeWhile_cons, hxy, hx, hy, hsub]

theorem toUINT_neg_one : toUINT (-1) = 2 ^ 32 - 1 := by decide

/-- The function `_convert_internal_type` returns `-1` exactly for the types
that are none of the five table names. -/
theorem convert_internal_type_eq_neg_one_iff (type : List Nat) :
    _convert_internal_type type = toUINT (-1) ↔
      ∀ name ∈ [PYGAME_SCRAP_TEXT, lit "text/plain;charset=utf-8", lit "image/tiff",
        PYGAME_SCRAP_BMP, lit "audio/wav"], cstring type ≠ cstring name := by
  have h1 := strcmp_eq_zero_iff type PYGAME_SCRAP_TEXT
  have h2 := strcmp_eq_zero_iff type (lit "text/plain;charset=utf-8")
  have h3 := strcmp_eq_zero_iff type (lit "image/tiff")
  have h4 := strcmp_eq_zero_iff type PYGAME_SCRAP_BMP
  have h5 := strcmp_eq_zero_iff type (lit "audio/wav")
  simp only [List.mem_cons, List.mem_singleton, List.not_mem_nil, or_false, forall_eq_or_imp,
    forall_eq, Ne, ← h1, ← h2, ← h3, ← h4, ← h5, _convert_internal_type, toUINT_neg_one]
  split_ifs <;> simp_all [CF_TEXT, CF_UNICODETEXT, CF_TIFF, CF_BITMAP, CF_WAVE]

/-- Claim C7, amended: on the clipboard-reading branch of `pygame_scrap_get`,
when the format registered for `type` is not available:
`_convert_internal_type` returns `-1` (`2 ^ 32 - 1` as a `UINT`) exactly for
the types that are none of the five table names, and `pygame_scrap_get` then
returns NULL; for a table name whose predefined format is available with
zero-terminated data `d`, and when `GetClipboardData` and `malloc` succeed,
`pygame_scrap_get` returns a copy of `d` up to and including its first zero
byte and sets `*count` to `strlen (d) + 1`. -/
theorem get_mapped_fallback (os : Win32) (sys : Sys) (s : State) (type : List Nat)
    (count : Nat) (hb : ReadsClipboard sys s)
    (hna : IsClipboardFormatAvailable s (_convert_format os type) = false) :
    (_convert_internal_type type = toUINT (-1) ↔
      ∀ name ∈ [PYGAME_SCRAP_TEXT, lit "text/plain;charset=utf-8", lit "image/tiff",
        PYGAME_SCRAP_BMP, lit "audio/wav"], cstring type ≠ cstring name) ∧
    toUINT (-1) = 2 ^ 32 - 1 ∧
    (_convert_internal_type type = toUINT (-1) →
      (pygame_scrap_get os sys s type count).retval = none) ∧
    (∀ d : List Nat, _convert_internal_type type ≠ toUINT (-1) →
      clipboardData s (_convert_internal_type type) = some d → 0 ∈ d →
      sys.getClipboardData = true → sys.alloc 0 = true →
      (pygame_scrap_get os sys s type count).retval = some (d.take (strlen d + 1)) ∧
      d.take (strlen d + 1) = cstring d ++ [0] ∧
      (pygame_scrap_get os sys s type count).count = strlen d + 1) := by
  refine ⟨convert_internal_type_eq_neg_one_iff type, toUINT_neg_one, ?_, ?_⟩
  · intro h
    rw [get_reads_clipboard os sys s type count hb]
    simp [hna, h]
  · intro d hne hd hz hg hm
    have hd2 : clipboardData { s with clipOpen := true } (_convert_internal_type type) =
        some d := hd
    rw [get_reads_clipboard os sys s type count hb, take_strlen_succ d hz]
    simp [hna, hne, getAvailable_copy sys _ _ count d hd2 hz hg hm]

/-- Claim C7 as stated fails when `malloc` fails and when `GetClipboardData`
fails: "text/plain" is read on the clipboard-reading branch, its registered
format is not available, `CF_TEXT` is available with the zero-terminated data
"hi", and `pygame_scrap_get` returns NULL instead of a copy of the data, once
with `malloc` returning NULL (`*count` is set to 3) and once with
`GetClipboardData` returning NULL while `malloc` would succeed (`*count` is
left at its old value 0). -/
theorem get_mapped_fallback_counterexample :
    IsClipboardFormatAvailable (stateWith [(CF_TEXT, [104, 105, 0])])
      (_convert_format os0 (lit "text/plain")) = false ∧
    _convert_internal_type (lit "text/plain") = CF_TEXT ∧
    IsClipboardFormatAvailable (stateWith [(CF_TEXT, [104, 105, 0])]) CF_TEXT = true ∧
    clipboardData (stateWith [(CF_TEXT, [104, 105, 0])]) CF_TEXT = some [104, 105, 0] ∧
    (ReadsClipboard sysNoMem (stateWith [(CF_TEXT, [104, 105, 0])]) ∧
      sysNoMem.getClipboardData = true ∧ sysNoMem.alloc 0 = false ∧
      (pygame_scrap_get os0 sysNoMem (stateWith [(CF_TEXT, [104, 105, 0])])
        (lit "text/plain") 0).retval = none ∧
      (pygame_scrap_get os0 sysNoMem (stateWith [(CF_TEXT, [104, 105, 0])])
        (lit "text/plain") 0).count = 3) ∧
    (ReadsClipboard sysNoData (stateWith [(CF_TEXT, [104, 105, 0])]) ∧
      sysNoData.getClipboardData = false ∧ sysNoData.alloc 0 = true ∧
      (pygame_scrap_get os0 sysNoData (stateWith [(CF_TEXT, [104, 105, 0])])
        (lit "text/plain") 0).retval = none ∧
      (pygame_scrap_get os0 sysNoData (stateWith [(CF_TEXT, [104, 105, 0])])
        (lit "text/plain") 0).count = 0) := by
  refine ⟨by decide, by decide, by decide, by decide,
    ⟨⟨by decide, by decide, by decide⟩, rfl, rfl, by decide, by decide⟩,
    ⟨⟨by decide, by decide, by decide⟩, rfl, rfl, by decide, by decide⟩⟩

/-- Claim C7, amended, at a sample call: "text/plain" read from a clipboard
that holds only `CF_TEXT` with the data "hi". -/
theorem get_mapped_fallback_witness :
    (_convert_internal_type (lit "text/plain") = toUINT (-1) ↔
      ∀ name ∈ [PYGAME_SCRAP_TEXT, lit "text/plain;charset=utf-8", lit "image/tiff",
        PYGAME_SCRAP_BMP, lit "audio/wav"], cstring (lit "text/plain") ≠ cstring name) ∧
    toUINT (-1) = 2 ^ 32 - 1 ∧
    (pygame_scrap_get os0 sysOk (stateWith [(CF_TEXT, [104, 105, 0])])
      (lit "text/plain") 0).retval = some [104, 105, 0] ∧
    (pygame_scrap_get os0 sysOk (stateWith [(CF_TEXT, [104, 105, 0])])
      (lit "text/plain") 0).count = 3 :=
  have h := get_mapped_fallback os0 sysOk (stateWith [(CF_TEXT, [104, 105, 0])])
    (lit "text/plain") 0 ⟨by decide, by decide, by decide⟩ (by decide)
  ⟨h.1, h.2.1,
    (h.2.2.2 [104, 105, 0] (by decide) (by decide) (by decide) rfl rfl).1,
    (h.2.2.2 [104, 105, 0] (by decide) (by decide) (by decide) rfl rfl).2.2⟩

/-- The round trip of `pygame_scrap_put` and `pygame_scrap_get` for data
without a zero byte: the block read back is `src` followed by a zero byte. -/
theorem put_get_roundtrip_of_no_zero (os : Win32) (sys sys2 : Sys) (s : State)
    (type : List Nat) (srclen : Nat) (src : List Nat) (count : Nat)
    (hlen : src.length = srclen) (hnz : ∀ b ∈ src, b ≠ 0)
    (hret : (pygame_scrap_put os sys s type srclen src).1 = 1)
    (hb : ReadsClipboard sys2 (pygame_scrap_put os sys s type srclen src).2)
    (hg : sys2.getClipboardData = true) (hm : sys2.alloc 0 = true) :
    (pygame_scrap_get os sys2 (pygame_scrap_put os sys s type srclen src).2 type count).retval =
      some (src ++ [0]) ∧
    (pygame_scrap_get os sys2 (pygame_scrap_put os sys s type srclen src).2 type count).count =
      srclen + 1 := by
  have hclip := put_clipboard os sys s type srclen src hret
  subst hlen
  rw [memcpy_into_zeroed] at hclip
  have hd : clipboardData { (pygame_scrap_put os sys s type src.length src).2 with
      clipOpen := true } (_convert_format os type) = some (src ++ [0]) := by
    simp only [clipboardData, hclip]
    split <;> simp
  have hav : IsClipboardFormatAvailable (pygame_scrap_put os sys s type src.length src).2
      (_convert_format os type) = true := by
    simp only [IsClipboardFormatAvailable, hclip]
    split <;> simp
  rw [get_reads_clipboard os sys2 _ type count hb]
  simp only [hav, if_true]
  rw [getAvailable_copy sys2 _ _ count (src ++ [0]) hd (by simp) hg hm]
  simp [strlen, cstring_of_no_zero src hnz]

/-- Claim C1 fails for data with a zero byte: `pygame_scrap_put` of the three
bytes 66, 0, 77 under "image/bmp" returns 1, the following `pygame_scrap_get`
runs on the clipboard-reading branch with `GetClipboardData` and `malloc`
succeeding, and it returns the two bytes 66, 0 with `*count = 2`: the block read
back does not hold the three bytes written and `*count` is less than `srclen`. -/
theorem put_get_truncates_at_zero_byte :
    (pygame_scrap_put os0 sysOk (stateWith []) (lit "image/bmp") 3 [66, 0, 77]).1 = 1 ∧
    (pygame_scrap_put os0 sysOk (stateWith []) (lit "image/bmp") 3 [66, 0, 77]).2.clipboard =
      [(RegisterClipboardFormat os0 (lit "image/bmp"), [66, 0, 77, 0])] ∧
    ReadsClipboard sysOk
      (pygame_scrap_put os0 sysOk (stateWith []) (lit "image/bmp") 3 [66, 0, 77]).2 ∧
    sysOk.getClipboardData = true ∧ sysOk.alloc 0 = true ∧
    (pygame_scrap_get os0 sysOk
      (pygame_scrap_put os0 sysOk (stateWith []) (lit "image/bmp") 3 [66, 0, 77]).2
      (lit "image/bmp") 0).retval = some [66, 0] ∧
    (pygame_scrap_get os0 sysOk
      (pygame_scrap_put os0 sysOk (stateWith []) (lit "image/bmp") 3 [66, 0, 77]).2
      (lit "image/bmp") 0).count = 2 := by
  refine ⟨by decide, by decide, ⟨by decide, by decide, by decide⟩, rfl, rfl, by decide,
    by decide⟩

/-! ## `pygame_scrap_get_types` -/

theorem freeAtI_of_pos (fuel : Nat) (i : Int) (h : 0 < i) : freeAtI fuel i = none := by
  induction fuel with
  | zero => simp [freeAtI, whileLoop, h]
  | succ n ih =>
    unfold freeAtI at ih ⊢
    simp [whileLoop, h, ih]

theorem freeDown_terminates (count : Int) (fuel : Nat) (h : count.toNat ≤ fuel) :
    ∃ c, freeDown fuel count = some c ∧ c ≤ 0 := by
  induction fuel generalizing count with
  | zero =>
    have hc : ¬ (count > 0) := by omega
    exact ⟨count, by simp [freeDown, whileLoop, hc], by omega⟩
  | succ n ih =>
    by_cases hc : count > 0
    · obtain ⟨c, h1, h2⟩ := ih (count - 1) (by omega)
      refine ⟨c, ?_, h2⟩
      unfold freeDown at h1 ⊢
      simp [whileLoop, hc, h1]
    · exact ⟨count, by simp [freeDown, whileLoop, hc], by omega⟩

/-- When the enumeration loop does not return, neither does the function. -/
theorem get_types_of_loop_none (os : Win32) (sys : Sys) (s : State) (fuel : Nat)
    (ho : sys.openClipboard = true) (hsize : CountClipboardFormats s ≠ 0)
    (hloop : typesLoop os sys { s with clipOpen := true } fuel (CountClipboardFormats s) 0
      { format := 0, types := none, count := -1, tmp := memset (block 100) 0 100,
        allocs := 0 } = none) :
    pygame_scrap_get_types os sys s fuel = none := by
  have hsize2 : CountClipboardFormats { s with clipOpen := true } = CountClipboardFormats s := rfl
  simp only [pygame_scrap_get_types, OpenClipboard, ho, if_true, Bool.not_true, hsize2]
  simp [hsize, hloop]

/-- Claim C2 fails: with three formats on the clipboard, each with a name of
nonzero length, and every system call succeeding, `pygame_scrap_get_types`
returns the first two names followed by NULL: the final store `types[count] =
NULL` replaces the last name.  With one format it returns a block that holds
only NULL. -/
theorem get_types_drops_last_name (fuel : Nat) :
    (∀ f ∈ [CF_TEXT, CF_BITMAP, 0xC003],
      (_lookup_clipboard_format os0 f (block 100) 100).1 ≠ 0) ∧
    (pygame_scrap_get_types os0 sysOk
      (stateWith [(CF_TEXT, [104, 105, 0]), (CF_BITMAP, [1, 2]), (0xC003, [7, 0])]) fuel).map
        (fun r => r.1) =
      some (.types [some (lit "text/plain"), some (lit "image/bmp"), none]) ∧
    (pygame_scrap_get_types os0 sysOk (stateWith [(CF_TEXT, [104, 105, 0])]) fuel).map
        (fun r => r.1) =
      some (.types [none]) := by
  refine ⟨by decide, ?_, ?_⟩
  · rfl
  · rfl

/-- Claim C8 fails: with two formats on the clipboard and `EnumClipboardFormats`
returning 0 in iteration 1, after one format was enumerated,
`pygame_scrap_get_types` does not return for any number of iterations of the
cleanup loop `while (i > 0) free (types[i]);`, which never changes `i`. -/
theorem get_types_enum_failure_diverges (fuel : Nat) :
    CountClipboardFormats (stateWith [(CF_TEXT, [104, 105, 0]), (CF_BITMAP, [1, 2])]) = 2 ∧
    EnumClipboardFormats sysEnumFails
      (stateWith [(CF_TEXT, [104, 105, 0]), (CF_BITMAP, [1, 2])]) 0 0 = CF_TEXT ∧
    EnumClipboardFormats sysEnumFails
      (stateWith [(CF_TEXT, [104, 105, 0]), (CF_BITMAP, [1, 2])]) 1 CF_TEXT = 0 ∧
    pygame_scrap_get_types os0 sysEnumFails
      (stateWith [(CF_TEXT, [104, 105, 0]), (CF_BITMAP, [1, 2])]) fuel = none := by
  refine ⟨by decide, by decide, by decide, ?_⟩
  have hloop : typesLoop os0 sysEnumFails
      { stateWith [(CF_TEXT, [104, 105, 0]), (CF_BITMAP, [1, 2])] with clipOpen := true } fuel 2 0
      { format := 0, types := none, count := -1, tmp := memset (block 100) 0 100, allocs := 0 } =
      (freeAtI fuel 1).map (fun _ => .inl .null) := rfl
  rw [freeAtI_of_pos fuel 1 (by decide)] at hloop
  exact get_types_of_loop_none os0 sysEnumFails _ fuel rfl (by decide) hloop

/-- Claim C9 fails for `pygame_scrap_get_types` and `pygame_scrap_get`:
`pygame_scrap_get_types` returns its block with the clipboard still open, and
returns NULL for an empty clipboard with the clipboard still open;
`pygame_scrap_get` returns NULL with the clipboard still open both for a type
that is neither available nor a table name and for a table name whose
predefined format is not available. -/
theorem get_leaves_clipboard_open (fuel : Nat) :
    (OpenClipboard sysOk (stateWith [(CF_TEXT, [104, 105, 0])])).1 = true ∧
    pygame_scrap_get_types os0 sysOk (stateWith [(CF_TEXT, [104, 105, 0])]) fuel =
      some (.types [none], { stateWith [(CF_TEXT, [104, 105, 0])] with clipOpen := true }) ∧
    pygame_scrap_get_types os0 sysOk (stateWith []) fuel =
      some (.null, { stateWith [] with clipOpen := true }) ∧
    ((pygame_scrap_get os0 sysOk (stateWith [(CF_TEXT, [104, 105, 0])]) (lit "x") 0).retval =
        none ∧
      (pygame_scrap_get os0 sysOk (stateWith [(CF_TEXT, [104, 105, 0])])
        (lit "x") 0).state.clipOpen = true) ∧
    ((pygame_scrap_get os0 sysOk (stateWith [(CF_TEXT, [104, 105, 0])])
        (lit "image/bmp") 0).retval = none ∧
      (pygame_scrap_get os0 sysOk (stateWith [(CF_TEXT, [104, 105, 0])])
        (lit "image/bmp") 0).state.clipOpen = true) := by
  refine ⟨by decide, rfl, rfl, ⟨by decide, by decide⟩, ⟨by decide, by decide⟩⟩

/-- Claim C10 fails when every enumerated format has a name of zero length:
with the single format 8 (`CF_DIB`, which has no name) on the clipboard and
every allocation succeeding, the loop stores nothing, `count` is still `-1`,
the final `realloc` is asked for 0 elements, and the store `types[count] =
NULL` has index `-1` in a block of 0 elements. -/
theorem get_types_stores_at_minus_one (fuel : Nat) :
    CountClipboardFormats (stateWith [(8, [1, 2, 3])]) = 1 ∧
    (_lookup_clipboard_format os0 8 (block 100) 100).1 = 0 ∧
    (pygame_scrap_get_types os0 sysOk (stateWith [(8, [1, 2, 3])]) fuel).map (fun r => r.1) =
      some (.badStore (-1) 0) := by
  refine ⟨by decide, by decide, rfl⟩

/-! ## `pygame_scrap_get_types` when every system call succeeds -/

theorem put_closes_clipboard (os : Win32) (sys : Sys) (s : State)
    (type : List Nat) (srclen : Nat) (src : List Nat)
    (hi : s._scrapinitialized = true) (ho : sys.openClipboard = true) :
    (pygame_scrap_put os sys s type srclen src).2.clipOpen = false := by
  cases ha : sys.globalAlloc
  · rw [put_alloc_failed os sys s type srclen src hi ho ha]
  · rw [put_succeeded os sys s type srclen src hi ho ha]

theorem lookup_length (os : Win32) (format : Nat) (buf : List Nat) (h : buf.length = 100) :
    (_lookup_clipboard_format os format buf 100).2.length = 100 := by
  rw [lookup_buf_irrelevant os format buf h]
  unfold _lookup_clipboard_format
  split_ifs
  · rfl
  · rfl
  · rfl
  · rfl
  · rfl
  · simp only [GetClipboardFormatName]
    split_ifs
    · simp [memset, block]
    · simp only [memcpy, memset, block, List.length_append, List.length_take,
        List.length_drop, List.length_replicate, List.length_singleton]
      omega

theorem dropWhile_append_of_all (p : Nat × List Nat → Bool) (pre rest : List (Nat × List Nat))
    (h : ∀ e ∈ pre, p e = true) : (pre ++ rest).dropWhile p = rest.dropWhile p := by
  induction pre with
  | nil => rfl
  | cons e pre ih =>
    have he : p e = true := h e (List.mem_cons_self _ _)
    simp [List.dropWhile_cons, he, ih (fun x hx => h x (List.mem_cons_of_mem _ hx))]

/-- The enumeration order: after the last format of `pre`, or at the start
for the format 0, `EnumClipboardFormats` yields the next format. -/
theorem nextFormat_append (pre rest : List (Nat × List Nat)) (e : Nat × List Nat)
    (hnd : ((pre ++ e :: rest).map (fun x => x.1)).Nodup)
    (hnz : 0 ∉ (pre ++ e :: rest).map (fun x => x.1)) :
    nextFormat (pre ++ e :: rest) (((pre.getLast?).map (fun x => x.1)).getD 0) = e.1 := by
  rcases List.eq_nil_or_concat pre with hpre | ⟨pre2, l, hpre⟩
  · subst hpre
    simp [nextFormat]
  · rw [List.concat_eq_append] at hpre
    subst hpre
    have hl : l.1 ≠ 0 := by
      intro h0
      apply hnz
      rw [← h0]
      have hmem : l ∈ pre2 ++ [l] ++ e :: rest := by simp
      exact List.mem_map_of_mem (fun x : Nat × List Nat => x.1) hmem
    have hA : ((pre2 ++ [l]).map (fun x => x.1)).Nodup := by
      rw [List.map_append] at hnd
      exact (List.nodup_append.1 hnd).1
    rw [List.map_append] at hA
    have hdis := (List.nodup_append.1 hA).2.2
    have hpre2 : ∀ x ∈ pre2, (fun y : Nat × List Nat => y.1 != l.1) x = true := by
      intro x hx
      have hxl : x.1 ≠ l.1 := by
        intro heq
        exact hdis (List.mem_map_of_mem (fun x => x.1) hx) (by simp [heq])
      simpa using hxl
    have hlast : (((pre2 ++ [l]).getLast?).map (fun x => x.1)).getD 0 = l.1 := by simp
    rw [hlast]
    unfold nextFormat
    rw [if_neg hl, List.append_assoc, dropWhile_append_of_all _ pre2 _ hpre2]
    simp [List.dropWhile_cons]

theorem realloc_typesOf (names : List (List Nat)) :
    realloc true (typesOf names) (names.length + 1) = some (names.map some ++ [none]) := by
  by_cases h : names = []
  · subst h; rfl
  · simp [realloc, typesOf, h, List.take_of_length_le]

theorem storeSlot_last (names : List (List Nat)) (v w : Slot) :
    storeSlot (names.map some ++ [v]) (names.length : Int) w =
      .ok (names.map some ++ [w]) := by
  have hset : (names.map some ++ [v]).set names.length w = names.map some ++ [w] := by
    rw [List.set_append_right _ _ (by simp)]
    simp
  simp only [storeSlot, List.length_append, List.length_map, List.length_singleton,
    Int.toNat_ofNat, hset]
  rw [if_pos]
  constructor <;> omega

theorem set_last (names : List (List Nat)) (v w : Slot) :
    (names.map some ++ [v]).set names.length w = names.map some ++ [w] := by
  rw [List.set_append_right _ _ (by simp)]
  simp

theorem typesLoop_succ (os : Win32) (sys : Sys) (s : State) (fuel n i : Nat) (st : Locals) :
    typesLoop os sys s fuel (n + 1) i st =
      if EnumClipboardFormats sys s i st.format = 0 then
        (freeAtI fuel i).map (fun _ => .inl .null)
      else if (_lookup_clipboard_format os (EnumClipboardFormats sys s i st.format)
          st.tmp 100).1 = 0 then
        typesLoop os sys s fuel n (i + 1)
          { st with
            format := EnumClipboardFormats sys s i st.format
            tmp := (_lookup_clipboard_format os (EnumClipboardFormats sys s i st.format)
              st.tmp 100).2 }
      else
        match realloc (sys.alloc st.allocs) st.types (st.count + 1 + 1).toNat with
        | none => (freeDown fuel (st.count + 1)).map (fun _ => .inl .null)
        | some tmptypes =>
          match storeSlot tmptypes (st.count + 1)
              (malloc (sys.alloc (st.allocs + 1))
                ((_lookup_clipboard_format os (EnumClipboardFormats sys s i st.format)
                  st.tmp 100).1 + 1)) with
          | .error o => some (.inl o)
          | .ok types =>
            match malloc (sys.alloc (st.allocs + 1))
                ((_lookup_clipboard_format os (EnumClipboardFormats sys s i st.format)
                  st.tmp 100).1 + 1) with
            | none => (freeDown fuel (st.count + 1)).map (fun _ => .inl .null)
            | some b =>
              typesLoop os sys s fuel n (i + 1)
                { format := EnumClipboardFormats sys s i st.format
                  types := some (types.set (st.count + 1).toNat
                    (some (memcpy (memset b 0
                      ((_lookup_clipboard_format os (EnumClipboardFormats sys s i st.format)
                        st.tmp 100).1 + 1))
                      (_lookup_clipboard_format os (EnumClipboardFormats sys s i st.format)
                        st.tmp 100).2
                      (_lookup_clipboard_format os (EnumClipboardFormats sys s i st.format)
                        st.tmp 100).1)))
                  count := st.count + 1
                  tmp := (_lookup_clipboard_format os (EnumClipboardFormats sys s i st.format)
                    st.tmp 100).2
                  allocs := st.allocs + 2 } := by
  rfl

/-- The enumeration loop when `EnumClipboardFormats` and every allocation
succeed: it runs to its end, and the block then holds the names of all the
formats with a name of nonzero length, with `count` the index of the last one. -/
theorem typesLoop_all_succeed (os : Win32) (sys : Sys) (s : State) (fuel : Nat)
    (henum : ∀ i, sys.enum i = true) (halloc : ∀ k, sys.alloc k = true)
    (hnd : (s.clipboard.map (fun x => x.1)).Nodup)
    (hnz : 0 ∉ s.clipboard.map (fun x => x.1)) :
    ∀ (rest pre : List (Nat × List Nat)) (names : List (List Nat)) (st : Locals),
      s.clipboard = pre ++ rest →
      st.format = ((pre.getLast?).map (fun x => x.1)).getD 0 →
      st.types = typesOf names → st.count = (names.length : Int) - 1 →
      st.tmp.length = 100 →
      ∃ st2, typesLoop os sys s fuel rest.length pre.length st = some (.inr st2) ∧
        st2.types = typesOf (names ++ namesOf os rest) ∧
        st2.count = ((names ++ namesOf os rest).length : Int) - 1 := by
  intro rest
  induction rest with
  | nil =>
    intro pre names st _ _ htypes hcount _
    exact ⟨st, rfl, by simpa [namesOf] using htypes, by simpa [namesOf] using hcount⟩
  | cons e rest ih =>
    intro pre names st hclip hformat htypes hcount htmp
    have hnext : EnumClipboardFormats sys s pre.length st.format = e.1 := by
      simp only [EnumClipboardFormats, henum, if_true, hformat, hclip]
      exact nextFormat_append pre rest e (hclip ▸ hnd) (hclip ▸ hnz)
    have he0 : e.1 ≠ 0 := by
      intro h0
      apply hnz
      rw [← h0, hclip]
      have hmem : e ∈ pre ++ e :: rest := by simp
      exact List.mem_map_of_mem (fun x : Nat × List Nat => x.1) hmem
    have hclip2 : s.clipboard = (pre ++ [e]) ++ rest := by simp [hclip]
    have hlen2 : (pre ++ [e]).length = pre.length + 1 := by simp
    have hlast : (((pre ++ [e]).getLast?).map (fun x => x.1)).getD 0 = e.1 := by simp
    have hbuf := lookup_buf_irrelevant os e.1 st.tmp htmp
    have htmp2 := lookup_length os e.1 st.tmp htmp
    rw [List.length_cons, typesLoop_succ, hnext, if_neg he0]
    by_cases hlen : (_lookup_clipboard_format os e.1 (block 100) 100).1 = 0
    · have hname : nameOf os e.1 = none := by simp [nameOf, hlen]
      have hnames : namesOf os (e :: rest) = namesOf os rest := by
        simp [namesOf, List.filterMap_cons, hname]
      rw [if_pos (by rw [hbuf]; exact hlen), hnames, ← hlen2]
      exact ih (pre ++ [e]) names _ hclip2 hlast.symm htypes hcount htmp2
    · have hname : nameOf os e.1 = some (nameBlock os e.1) := by simp [nameOf, hlen]
      have hnames : namesOf os (e :: rest) = nameBlock os e.1 :: namesOf os rest := by
        simp only [namesOf, List.filterMap_cons, hname]
      have hc : st.count + 1 = (names.length : Int) := by omega
      have hc2 : ((names.length : Int) + 1).toNat = names.length + 1 := by omega
      rw [if_neg (by rw [hbuf]; exact hlen), hbuf, hc, hc2, halloc, halloc, htypes,
        realloc_typesOf]
      simp only [malloc, if_true, storeSlot_last, Int.toNat_ofNat, set_last]
      rw [hnames, ← hlen2]
      have key := ih (pre ++ [e]) (names ++ [nameBlock os e.1])
        { format := e.1
          types := some (names.map some ++ [some (nameBlock os e.1)])
          count := (names.length : Int)
          tmp := (_lookup_clipboard_format os e.1 (block 100) 100).2
          allocs := st.allocs + 2 }
        hclip2 hlast.symm (by simp [typesOf]) (by simp)
        (by rw [← hbuf]; exact htmp2)
      simpa [List.append_assoc, nameBlock] using key

theorem final_store (names : List (List Nat)) :
    (match realloc true (typesOf names) ((names.length : Int) - 1 + 1).toNat with
      | none => none
      | some tmptypes =>
        match storeSlot tmptypes ((names.length : Int) - 1) none with
        | .error o => some o
        | .ok types => some (Outcome.types types)) =
      some (if names = [] then Outcome.badStore (-1) 0
        else Outcome.types (names.dropLast.map some ++ [none])) := by
  rcases List.eq_nil_or_concat names with h | ⟨front, l, h⟩
  · subst h
    rfl
  · rw [List.concat_eq_append] at h
    subst h
    have h1 : (((front ++ [l]).length : Int) - 1 + 1).toNat = front.length + 1 := by
      simp only [List.length_append, List.length_singleton]; omega
    have h2 : ((front ++ [l]).length : Int) - 1 = (front.length : Int) := by
      simp only [List.length_append, List.length_singleton]; omega
    have h3 : realloc true (typesOf (front ++ [l])) (front.length + 1) =
        some (front.map some ++ [some l]) := by
      simp [realloc, typesOf, List.take_of_length_le]
    rw [h1, h2, h3]
    simp only [storeSlot_last]
    simp

/-- The result of `pygame_scrap_get_types` when `OpenClipboard`,
`EnumClipboardFormats` and every allocation succeed, for a clipboard that is
not empty: the names of the formats with a name of nonzero length, in
enumeration order, with the last of them replaced by NULL; and a store at
index `-1` of a block of 0 elements when there is no such format.  The
clipboard is left open. -/
theorem get_types_all_succeed (os : Win32) (sys : Sys) (s : State) (fuel : Nat)
    (ho : sys.openClipboard = true)
    (henum : ∀ i, sys.enum i = true) (halloc : ∀ k, sys.alloc k = true)
    (hnd : (s.clipboard.map (fun x => x.1)).Nodup)
    (hnz : 0 ∉ s.clipboard.map (fun x => x.1)) (hne : s.clipboard ≠ []) :
    pygame_scrap_get_types os sys s fuel =
      some (if namesOf os s.clipboard = [] then Outcome.badStore (-1) 0
          else Outcome.types ((namesOf os s.clipboard).dropLast.map some ++ [none]),
        { s with clipOpen := true }) := by
  obtain ⟨st2, hloop, htypes, hcount⟩ :=
    typesLoop_all_succeed os sys { s with clipOpen := true } fuel henum halloc hnd hnz
      s.clipboard [] []
      { format := 0, types := none, count := -1, tmp := memset (block 100) 0 100, allocs := 0 }
      rfl rfl rfl rfl (by simp [memset, block])
  have hsize : CountClipboardFormats { s with clipOpen := true } = s.clipboard.length := rfl
  have hsize0 : s.clipboard.length ≠ 0 := by
    intro h; exact hne (List.length_eq_zero.1 h)
  simp only [List.nil_append, List.length_nil] at hloop htypes hcount
  have hfin := final_store (namesOf os s.clipboard)
  simp only [pygame_scrap_get_types, OpenClipboard, ho, if_true, Bool.not_true, hsize,
    hsize0, if_false, hloop, halloc, htypes, hcount]
  have key : ∀ (r : Option (List Slot)) (c : Int) (x : Outcome) (s1 : State),
      (match r with
        | none => none
        | some tmptypes =>
          match storeSlot tmptypes c none with
          | .error o => some o
          | .ok types => some (Outcome.types types)) = some x →
      (match r with
        | none => (freeDown fuel c).map (fun _ => (Outcome.null, s1))
        | some tmptypes =>
          match storeSlot tmptypes c none with
          | .error o => some (o, s1)
          | .ok types => some (Outcome.types types, s1)) = some (x, s1) := by
    intro r c x s1 h
    cases r with
    | none => simp at h
    | some tmptypes =>
      simp only at h ⊢
      cases hs : storeSlot tmptypes c none with
      | error o => rw [hs] at h; simpa using h
      | ok types => rw [hs] at h; simpa using h
  exact key (realloc true (typesOf (namesOf os s.clipboard))
      (((namesOf os s.clipboard).length : Int) - 1 + 1).toNat)
    (((namesOf os s.clipboard).length : Int) - 1) _ _ hfin

theorem freeAtI_zero (fuel : Nat) : freeAtI fuel 0 = some 0 := by
  cases fuel <;> simp [freeAtI, whileLoop]

/-- The enumeration-failure path: when `EnumClipboardFormats` returns 0 in
iteration `i`, the loop body returns NULL for `i = 0` and does not return for
`i > 0`. -/
theorem typesLoop_enum_failure (os : Win32) (sys : Sys) (s : State) (fuel n i : Nat)
    (st : Locals) (h : EnumClipboardFormats sys s i st.format = 0) :
    typesLoop os sys s fuel (n + 1) i st = if i = 0 then some (.inl .null) else none := by
  rw [typesLoop_succ, if_pos h]
  by_cases hi : i = 0
  · subst hi
    simp [freeAtI_zero]
  · rw [if_neg hi, freeAtI_of_pos fuel i (by omega)]
    rfl

/-- Every return of `pygame_scrap_get_types` after a successful
`OpenClipboard` leaves the clipboard open: the function has no call of
`CloseClipboard`. -/
theorem get_types_never_closes (os : Win32) (sys : Sys) (s : State) (fuel : Nat)
    (r : Outcome × State) (ho : sys.openClipboard = true)
    (h : pygame_scrap_get_types os sys s fuel = some r) :
    r.2 = { s with clipOpen := true } := by
  simp only [pygame_scrap_get_types, OpenClipboard, ho, if_true, Bool.not_true,
    Bool.false_eq_true, if_false] at h
  split at h
  · simp at h; rw [← h]
  · split at h
    · simp at h
    · simp at h; rw [← h]
    · split at h
      · simp only [Option.map_eq_some'] at h
        obtain ⟨_, _, h⟩ := h
        rw [← h]
      · split at h
        · simp at h; rw [← h]
        · simp at h; rw [← h]

end ScrapWin
